import Mathlib

/-!
Verification of the RelocationJobxyz Flask application.

Shallow embedding of the parts of the code the claims speak about:
`models.py` (User subscription access), `ats.py` (application status
updates), `dashboard.py` (bookmarks and applications), `routes.py`
(scraped-job deduplication), `cultural_intelligence.py` (cultural fit
scoring) and `job_scraper.py` (aggregation of job APIs).

Time is modelled as a `Nat` tick count (`datetime.utcnow()` becomes an
explicit `now` parameter); database tables become lists of rows; the
request/response cycle becomes a pure function from the relevant state
and request data to the new state and a response value.
-/

namespace Models

/-- Embeds the columns of `models.User` that `has_access` reads
(`models.py`).  `subscription_expires` is a nullable DateTime column,
so it is an `Option Nat`; a `datetime` object is always truthy in
Python, hence `not self.subscription_expires` is exactly `none`. -/
structure User where
  subscription_type : String
  subscription_expires : Option Nat
  deriving Repr, DecidableEq

/-- Embeds `User.is_premium` from `models.py`:
`self.subscription_type in ['premium', 'family', 'enterprise']`. -/
def User.is_premium (u : User) : Bool :=
  u.subscription_type == "premium" || u.subscription_type == "family" ||
    u.subscription_type == "enterprise"

/-- Embeds `User.is_trial_active` from `models.py`: returns false unless the
subscription type is `'free'` and `subscription_expires` is set, and then
compares `datetime.utcnow()` with the stored expiry. -/
def User.is_trial_active (u : User) (now : Nat) : Bool :=
  if u.subscription_type != "free" then false
  else
    match u.subscription_expires with
    | none => false
    | some e => now < e

/-- Embeds `User.has_access` from `models.py`:
`self.is_premium() or self.is_trial_active()`. -/
def User.has_access (u : User) (now : Nat) : Bool :=
  u.is_premium || u.is_trial_active now

/-- The access condition exactly as the claim words it: premium-tier
subscription, or the current time is before `subscription_expires`. -/
def claimedAccess (u : User) (now : Nat) : Prop :=
  (u.subscription_type = "premium" ∨ u.subscription_type = "family" ∨
      u.subscription_type = "enterprise") ∨
    (∃ e, u.subscription_expires = some e ∧ now < e)

instance (u : User) (now : Nat) : Decidable (claimedAccess u now) := by
  unfold claimedAccess
  cases u.subscription_expires <;> exact inferInstanceAs (Decidable _)

end Models

namespace ATS

/-- Embeds the columns of `models.JobApplication` (`models.py`). -/
structure Application where
  id : Nat
  user_id : Nat
  job_id : Nat
  status : String
  cover_letter : String
  resume_url : String
  applied_at : Nat
  last_updated : Nat
  notes : String
  deriving Repr, DecidableEq

/-- The caller attributes `ats.update_application_status` reads from
`current_user`. -/
structure Caller where
  user_type : String
  company_name : String
  deriving Repr, DecidableEq

/-- The JSON responses of `ats.update_application_status`:
403 `Access denied`, 400 `Invalid status`, or 200 success echoing the
new status. -/
inductive UpdateResponse where
  | accessDenied
  | invalidStatus
  | success (status : String)
  deriving Repr, DecidableEq

/-- The status whitelist of `ats.update_application_status`
(`ats.py`). -/
def validStatuses : List String :=
  ["applied", "screening", "interview", "offer", "rejected"]

/-- Embeds `ats.update_application_status` (`ats.py`): requires an employer
whose `company_name` equals the parent job's `company`; on a
whitelisted status it overwrites `status`, overwrites `notes` only when
the supplied notes string is truthy (non-empty; `request.json.get`
defaults it to `''`), and stamps `last_updated` with
`datetime.utcnow()`.  Returns the stored application row (unchanged on
every error path) and the JSON response. -/
def update_application_status (caller : Caller) (jobCompany : String)
    (app : Application) (new_status notes : String) (now : Nat) :
    Application × UpdateResponse :=
  if caller.user_type != "employer" then (app, .accessDenied)
  else if jobCompany != caller.company_name then (app, .accessDenied)
  else if validStatuses.contains new_status then
    ({ app with
        status := new_status,
        notes := if notes != "" then notes else app.notes,
        last_updated := now },
      .success new_status)
  else (app, .invalidStatus)

end ATS

namespace Dashboard

/-- The fields `dashboard.apply_to_job` stores in a new
`JobApplication` row (`dashboard.py`); the remaining columns take
their defaults. -/
structure AppRow where
  user_id : Nat
  job_id : Nat
  cover_letter : String
  resume_url : String
  deriving Repr, DecidableEq

/-- Responses of `dashboard.apply_to_job`: 403, 404 on an unknown job
id, 400 `You have already applied to this job`, or 200 success. -/
inductive ApplyResponse where
  | accessDenied
  | notFound
  | alreadyApplied
  | success
  deriving Repr, DecidableEq

/-- Embeds `dashboard.apply_to_job` (`dashboard.py`): job seekers only;
`get_or_404` on the job id; rejects with 400 when a `JobApplication`
row for `(current_user.id, job_id)` already exists; otherwise inserts
exactly one new row.  `jobIds` are the ids present in the `Job` table,
`apps` the `JobApplication` table. -/
def apply_to_job (jobIds : List Nat) (apps : List AppRow)
    (caller_type : String) (uid jid : Nat) (cover resume : String) :
    List AppRow × ApplyResponse :=
  if caller_type != "job_seeker" then (apps, .accessDenied)
  else if !jobIds.contains jid then (apps, .notFound)
  else if apps.any (fun a => a.user_id == uid && a.job_id == jid) then
    (apps, .alreadyApplied)
  else (apps ++ [⟨uid, jid, cover, resume⟩], .success)

/-- Embeds the columns of `models.JobBookmark` (`models.py`); the
schema carries `UniqueConstraint('user_id', 'job_id')`. -/
structure Bookmark where
  id : Nat
  user_id : Nat
  job_id : Nat
  deriving Repr, DecidableEq

/-- The uniqueness constraint of the `JobBookmark` table: no two rows
share the same `(user_id, job_id)` pair. -/
def bookmarkKeyUnique (bms : List Bookmark) : Prop :=
  List.Pairwise (fun a b => a.user_id ≠ b.user_id ∨ a.job_id ≠ b.job_id) bms

instance (bms : List Bookmark) : Decidable (bookmarkKeyUnique bms) :=
  inferInstanceAs (Decidable (List.Pairwise _ bms))

/-- Embeds `dashboard.toggle_bookmark` (`dashboard.py`): job seekers only;
`get_or_404` on the job id; deletes the existing bookmark row for
`(current_user.id, job_id)` when one exists, otherwise inserts one new
row (`freshId` stands for the autoincremented primary key).  Returns
the new table state and the `bookmarked` flag of the JSON response
(`none` on the 403/404 paths). -/
def toggle_bookmark (jobIds : List Nat) (bms : List Bookmark)
    (caller_type : String) (uid jid : Nat) (freshId : Nat) :
    List Bookmark × Option Bool :=
  if caller_type != "job_seeker" then (bms, none)
  else if !jobIds.contains jid then (bms, none)
  else
    match bms.find? (fun b => b.user_id == uid && b.job_id == jid) with
    | some b => (bms.erase b, some false)
    | none => (bms ++ [⟨freshId, uid, jid⟩], some true)

end Dashboard

namespace Routes

/-- The fields the `routes.search_jobs` save loop copies from a scraped
job dictionary into a new `Job` row (`routes.py`).  Optional dictionary
keys (`job_data.get(...)`) become `Option`s; `relocation_package` is
stored as its JSON serialisation, modelled as the resulting string. -/
structure JobRow where
  title : String
  company : String
  location : String
  job_url : String
  visa_sponsorship : Bool
  relocation_package : String
  moving_allowance : Option String
  housing_assistance : Bool
  relocation_type : Option String
  hr_email : Option String
  company_email : Option String
  job_description : Option String
  requirements : Option String
  salary_range : Option String
  job_type : Option String
  remote_friendly : Bool
  deriving Repr, DecidableEq

/-- The duplicate check of `routes.search_jobs`:
`Job.query.filter_by(title=…, company=…, job_url=…)` — equality on
exactly these three fields. -/
def dedupMatch (row jd : JobRow) : Bool :=
  row.title == jd.title && row.company == jd.company &&
    row.job_url == jd.job_url

/-- One iteration of the save loop in `routes.search_jobs`: the scraped
job is added to the `Job` table unless a row with equal title, company
and `job_url` already exists.  The session autoflushes before each
query, so rows added by earlier iterations are visible here: the check
runs against the evolving table. -/
def saveStep (table : List JobRow) (jd : JobRow) : List JobRow :=
  if table.any (fun r => dedupMatch r jd) then table else table ++ [jd]

/-- The full save loop of `routes.search_jobs` over the scraped list. -/
def saveJobs (table : List JobRow) (scraped : List JobRow) : List JobRow :=
  scraped.foldl saveStep table

end Routes

namespace Scraper

/-- The outcomes `job_scraper.search_relocation_jobs` depends on: what
each helper API call returns, or the exception it raises
(`Except.error`), and whether `RAPIDAPI_KEY` is set in the
environment.  `α` is the type of one scraped job dictionary (the
aggregator never inspects the elements). -/
structure ScrapeEnv (α : Type) where
  usajobs : Except String (List α)
  rapidapi_key : Option String
  jsearch : Except String (List α)
  linkup : Except String (List α)

/-- Embeds `job_scraper.search_relocation_jobs` (`job_scraper.py`): extends
`jobs` with the USAJobs results, then — only when `RAPIDAPI_KEY` is
set — the JSearch results, then the LinkUp results; any exception is
caught by the surrounding `try`/`except`, after which the single
`return jobs[:20]` returns whatever was collected so far, capped at 20
results.  The function itself never raises, hence a total `List α`. -/
def search_relocation_jobs (env : ScrapeEnv α) : List α :=
  match env.usajobs with
  | .error _ => ([] : List α).take 20
  | .ok usa =>
    match env.rapidapi_key with
    | some _ =>
      match env.jsearch with
      | .error _ => usa.take 20
      | .ok rj =>
        match env.linkup with
        | .error _ => (usa ++ rj).take 20
        | .ok lj => (usa ++ rj ++ lj).take 20
    | none =>
      match env.linkup with
      | .error _ => usa.take 20
      | .ok lj => (usa ++ lj).take 20

end Scraper

namespace Cultural

/-- Python's substring operator `pat in s`: `pat.data` occurs as a
contiguous sublist of `s.data`. -/
def strContains (s pat : String) : Bool :=
  decide (pat.data <:+: s.data)

/-- Embeds the `WorkStyle` enum of `cultural_intelligence.py`. -/
inductive WorkStyle where
  | collaborative | independent | directive | supportive | analytical | creative
  deriving Repr, DecidableEq

/-- Embeds the `CommunicationStyle` enum of `cultural_intelligence.py`. -/
inductive CommunicationStyle where
  | direct | indirect | formal | informal | contextual | explicit
  deriving Repr, DecidableEq

/-- Embeds the `PersonalityProfile` dataclass of `cultural_intelligence.py`. -/
structure PersonalityProfile where
  work_style : WorkStyle
  communication_style : CommunicationStyle
  leadership_preference : String
  decision_making : String
  conflict_resolution : String
  feedback_preference : String
  meeting_style : String
  work_life_balance : String
  deriving Repr, DecidableEq

/-- Embeds the `CompanyCulture` dataclass of `cultural_intelligence.py`; the
1–10 ratings are Python ints. -/
structure CompanyCulture where
  company_name : String
  industry : String
  size : String
  culture_type : String
  hierarchy_level : Int
  innovation_focus : Int
  collaboration_level : Int
  work_life_balance : Int
  communication_style : String
  decision_making_speed : String
  meeting_frequency : String
  remote_work_culture : String
  cultural_values : List String
  deriving Repr, DecidableEq

/-- Embeds the `CulturalFitResult` dataclass of `cultural_intelligence.py`.
The `scores`/`overall_fit_score` floats are modelled as exact
rationals: every score in this computation is an integer and the only
division is by `len(scores) ∈ {1,2,3,4}`, whose float rounding (at most
for division by 3) never moves a value across one of the integer
thresholds 85/70/55 used below. -/
structure CulturalFitResult where
  company_name : String
  overall_fit_score : ℚ
  compatibility_level : String
  strengths : List String
  potential_challenges : List String
  adaptation_tips : List String
  interview_preparation : List String
  cultural_differences : List (String × String)
  deriving Repr, DecidableEq

/-- Embeds the `scores` dict built at the start of
`CulturalIntelligence._calculate_cultural_fit`, in insertion order: an
optional `collaboration` entry, an optional `communication` entry, a
`hierarchy` entry assigned in both branches of an unconditional
`if`/`else`, and an optional `work_life` entry. -/
def fitScores (p : PersonalityProfile) (c : CompanyCulture) :
    List (String × ℚ) :=
  let s₁ : List (String × ℚ) :=
    if p.work_style = .collaborative then
      [("collaboration", (c.collaboration_level : ℚ) * 10)]
    else if p.work_style = .independent then
      [("collaboration", ((10 : ℚ) - (c.collaboration_level : ℚ)) * 10)]
    else []
  let s₂ :=
    if p.communication_style = .direct then
      s₁ ++ [("communication",
        if c.communication_style = "direct" then (90 : ℚ) else 60)]
    else s₁
  let s₃ :=
    if strContains p.leadership_preference.toLower "flat" then
      s₂ ++ [("hierarchy", ((10 : ℚ) - (c.hierarchy_level : ℚ)) * 10)]
    else
      s₂ ++ [("hierarchy", (c.hierarchy_level : ℚ) * 10)]
  if strContains p.work_life_balance.toLower "balance" then
    s₃ ++ [("work_life", (c.work_life_balance : ℚ) * 10)]
  else s₃

/-- Python's `scores.get(key, 0)` on the (duplicate-free) dict,
modelled on the association list. -/
def scoreGet (scores : List (String × ℚ)) (k : String) : ℚ :=
  match scores.find? (fun kv => kv.1 == k) with
  | some kv => kv.2
  | none => 0

/-- Embeds `CulturalIntelligence._identify_strengths`
(`cultural_intelligence.py`). -/
def identify_strengths (p : PersonalityProfile) (c : CompanyCulture)
    (scores : List (String × ℚ)) : List String :=
  (if scoreGet scores "collaboration" > 80 then
    ["Strong collaboration style match"] else []) ++
  (if scoreGet scores "communication" > 80 then
    ["Communication style alignment"] else []) ++
  (if scoreGet scores "work_life" > 80 then
    ["Work-life balance expectations match"] else []) ++
  (if c.innovation_focus > 7 ∧ p.work_style = .creative then
    ["Innovation and creativity focus alignment"] else [])

/-- Embeds `CulturalIntelligence._identify_challenges`
(`cultural_intelligence.py`). -/
def identify_challenges (p : PersonalityProfile) (c : CompanyCulture)
    (scores : List (String × ℚ)) : List String :=
  (if scoreGet scores "hierarchy" < 60 then
    ["Hierarchy and management style differences"] else []) ++
  (if scoreGet scores "communication" < 60 then
    ["Communication style misalignment"] else []) ++
  (if c.meeting_frequency = "high" ∧
      strContains p.meeting_style.toLower "minimal" then
    ["High meeting frequency vs preference for fewer meetings"] else [])

/-- The per-challenge branch of
`CulturalIntelligence._generate_adaptation_tips`. -/
def tipsFor (challenge : String) : List String :=
  if strContains challenge.toLower "hierarchy" then
    ["Practice formal communication with senior management",
     "Understand reporting structures and approval processes"]
  else if strContains challenge.toLower "communication" then
    ["Observe team communication patterns in first weeks",
     "Ask for feedback on communication style"]
  else if strContains challenge.toLower "meeting" then
    ["Prepare to contribute actively in meetings",
     "Focus on building relationships through meeting participation"]
  else []

/-- Embeds `CulturalIntelligence._generate_adaptation_tips`
(`cultural_intelligence.py`): per-challenge tips, then three general
tips, truncated to the first 5.  The Python signature also receives the
personality and the company but reads only the challenge list. -/
def generate_adaptation_tips (challenges : List String) : List String :=
  ((challenges.map tipsFor).flatten ++
    ["Schedule regular 1:1s with your manager",
     "Join company social events to understand culture",
     "Find a cultural mentor within the organization"]).take 5

/-- Embeds `CulturalIntelligence._generate_interview_prep`
(`cultural_intelligence.py`). -/
def generate_interview_prep (c : CompanyCulture) : List String :=
  (if c.collaboration_level > 7 then
    ["Prepare examples of successful team collaboration"] else []) ++
  (if c.innovation_focus > 7 then
    ["Discuss your approach to innovation and problem-solving"] else []) ++
  (if c.hierarchy_level > 6 then
    ["Show respect for structure and formal processes"] else []) ++
  ["Research " ++ c.company_name ++ "\x27s recent initiatives",
   "Prepare questions about team culture and values",
   "Practice explaining your cultural adaptability"]

/-- Embeds `CulturalIntelligence._identify_cultural_differences`
(`cultural_intelligence.py`), in dict insertion order. -/
def identify_cultural_differences (p : PersonalityProfile)
    (c : CompanyCulture) : List (String × String) :=
  (if p.communication_style = .direct ∧ c.communication_style = "indirect" then
    [("communication", "Company prefers indirect communication, you prefer direct")]
  else []) ++
  (if strContains p.leadership_preference.toLower "flat" ∧ c.hierarchy_level > 6 then
    [("hierarchy", "Company has formal hierarchy, you prefer flat structure")]
  else []) ++
  (if strContains p.meeting_style.toLower "minimal" ∧ c.meeting_frequency = "high" then
    [("meetings", "Company has frequent meetings, you prefer fewer meetings")]
  else [])

/-- Embeds the `overall_score = sum(scores.values()) / len(scores)` line of
`CulturalIntelligence._calculate_cultural_fit`. -/
def overall_score (p : PersonalityProfile) (c : CompanyCulture) : ℚ :=
  ((fitScores p c).map Prod.snd).sum / ((fitScores p c).length : ℚ)

/-- Embeds `CulturalIntelligence._calculate_cultural_fit`
(`cultural_intelligence.py`): builds the `scores` dict, averages it,
buckets the average into a compatibility label, and assembles the
result record from the pure helper functions above. -/
def calculate_cultural_fit (p : PersonalityProfile) (c : CompanyCulture) :
    CulturalFitResult :=
  let scores := fitScores p c
  let compatibility :=
    if overall_score p c ≥ 85 then "Excellent Fit"
    else if overall_score p c ≥ 70 then "Good Fit"
    else if overall_score p c ≥ 55 then "Moderate Fit"
    else "Challenging Fit"
  let challenges := identify_challenges p c scores
  { company_name := c.company_name
    overall_fit_score := overall_score p c
    compatibility_level := compatibility
    strengths := identify_strengths p c scores
    potential_challenges := challenges
    adaptation_tips := generate_adaptation_tips challenges
    interview_preparation := generate_interview_prep c
    cultural_differences := identify_cultural_differences p c }

end Cultural

namespace Samples

/-- A stored job application used to instantiate the theorems below. -/
def app0 : ATS.Application :=
  { id := 1, user_id := 5, job_id := 3, status := "applied",
    cover_letter := "dear team", resume_url := "cv.pdf",
    applied_at := 10, last_updated := 10, notes := "" }

/-- An employer caller whose company owns the sample job. -/
def caller0 : ATS.Caller :=
  { user_type := "employer", company_name := "Acme" }

/-- A sample personality profile (the example from the bottom of
`cultural_intelligence.py`). -/
def p0 : Cultural.PersonalityProfile :=
  { work_style := .collaborative, communication_style := .direct,
    leadership_preference := "flat structure",
    decision_making := "Consensus-based",
    conflict_resolution := "Direct discussion",
    feedback_preference := "Regular and specific",
    meeting_style := "Structured",
    work_life_balance := "Clear boundaries" }

/-- A sample company culture record. -/
def c0 : Cultural.CompanyCulture :=
  { company_name := "Acme", industry := "Technology", size := "large",
    culture_type := "innovative", hierarchy_level := 4,
    innovation_focus := 8, collaboration_level := 8,
    work_life_balance := 7, communication_style := "direct",
    decision_making_speed := "fast", meeting_frequency := "high",
    remote_work_culture := "hybrid", cultural_values := ["openness"] }

/-- A scraper environment in which the JSearch call raises. -/
def env0 : Scraper.ScrapeEnv Nat :=
  { usajobs := .ok [1, 2, 3], rapidapi_key := some "key",
    jsearch := .error "timeout", linkup := .ok [4] }

/-- A bookmark table satisfying the uniqueness constraint. -/
def bms0 : List Dashboard.Bookmark := [⟨1, 5, 3⟩, ⟨2, 5, 4⟩]

end Samples

/-- C1 (counterexample): the claim reads "has_access() is true iff the
subscription is premium/family/enterprise or the current time is before
`subscription_expires`".  A user whose `subscription_type` is the
undocumented value `"trial"` with an unexpired `subscription_expires`
falsifies it: `is_trial_active` additionally requires
`subscription_type == 'free'`, so `has_access` returns false while the
claimed right-hand side holds. -/
theorem has_access_claim_counterexample :
    ¬ (Models.User.has_access ⟨"trial", some 100⟩ 50 = true ↔
        Models.claimedAccess ⟨"trial", some 100⟩ 50) := by
  decide

/-- C1 (amended): `has_access` returns true iff the subscription type
is premium, family or enterprise, or the subscription type is `free`
and `subscription_expires` is set and the current time is before it. -/
theorem has_access_iff_premium_or_unexpired_free_trial
    (u : Models.User) (now : Nat) :
    u.has_access now = true ↔
      (u.subscription_type = "premium" ∨ u.subscription_type = "family" ∨
        u.subscription_type = "enterprise") ∨
      (u.subscription_type = "free" ∧
        ∃ e, u.subscription_expires = some e ∧ now < e) := by
  obtain ⟨t, e⟩ := u
  simp only [Models.User.has_access, Models.User.is_premium,
    Models.User.is_trial_active, Bool.or_eq_true, beq_iff_eq, bne_iff_ne,
    ne_eq, ite_not]
  by_cases hf : t = "free" <;> cases e <;> simp [hf, or_assoc]

/-- C2: the application-status-update endpoint modifies the stored
application only when the caller is an employer whose `company_name`
equals the parent job's `company`; on a success response the stored row
is exactly the old one with `status` overwritten, `notes` overwritten
only when a non-empty notes string was supplied, and `last_updated`
stamped with the current time — every other field is unchanged. -/
theorem update_application_status_frame (caller : ATS.Caller)
    (jobCompany : String) (app : ATS.Application)
    (new_status notes : String) (now : Nat) :
    ((ATS.update_application_status caller jobCompany app new_status notes now).1 ≠ app →
      caller.user_type = "employer" ∧ caller.company_name = jobCompany) ∧
    ((ATS.update_application_status caller jobCompany app new_status notes now).2 =
        ATS.UpdateResponse.success new_status →
      (ATS.update_application_status caller jobCompany app new_status notes now).1 =
        { app with
            status := new_status,
            notes := if notes = "" then app.notes else notes,
            last_updated := now }) := by
  by_cases h1 : (caller.user_type != "employer") = true
  · rw [ATS.update_application_status, if_pos h1]
    exact ⟨fun hc => absurd rfl hc, fun hr => by simp at hr⟩
  · by_cases h2 : (jobCompany != caller.company_name) = true
    · rw [ATS.update_application_status, if_neg h1, if_pos h2]
      exact ⟨fun hc => absurd rfl hc, fun hr => by simp at hr⟩
    · by_cases h3 : ATS.validStatuses.contains new_status = true
      · rw [ATS.update_application_status, if_neg h1, if_neg h2, if_pos h3]
        refine ⟨fun _ => ⟨?_, ?_⟩, fun _ => ?_⟩
        · simp only [bne_iff_ne, ne_eq, not_not] at h1
          exact h1
        · simp only [bne_iff_ne, ne_eq, not_not] at h2
          exact h2.symm
        · by_cases hn : notes = "" <;> simp [hn, bne_iff_ne]
      · rw [ATS.update_application_status, if_neg h1, if_neg h2, if_neg h3]
        exact ⟨fun hc => absurd rfl hc, fun hr => by simp at hr⟩

/-- C3: for an authorised employer, the status-update endpoint accepts
exactly the five statuses applied/screening/interview/offer/rejected —
whatever the current status of the application is — and any other
requested status yields the `Invalid status` error with the stored
application unchanged. -/
theorem update_application_status_whitelist (caller : ATS.Caller)
    (jobCompany : String) (app : ATS.Application)
    (new_status notes : String) (now : Nat)
    (hemp : caller.user_type = "employer")
    (hco : caller.company_name = jobCompany) :
    (new_status ∈ ATS.validStatuses →
      (ATS.update_application_status caller jobCompany app new_status notes now).2 =
        ATS.UpdateResponse.success new_status) ∧
    (new_status ∉ ATS.validStatuses →
      (ATS.update_application_status caller jobCompany app new_status notes now).2 =
        ATS.UpdateResponse.invalidStatus ∧
      (ATS.update_application_status caller jobCompany app new_status notes now).1 = app) := by
  have h1 : (caller.user_type != "employer") = false := by simp [hemp]
  have h2 : (jobCompany != caller.company_name) = false := by simp [hco]
  constructor
  · intro hmem
    have h3 : ATS.validStatuses.contains new_status = true :=
      List.elem_eq_true_of_mem hmem
    rw [ATS.update_application_status]
    simp only [h1, h2, Bool.false_eq_true, if_false, h3, if_true]
  · intro hmem
    have h3 : ¬ ATS.validStatuses.contains new_status = true := by
      simpa using hmem
    rw [ATS.update_application_status]
    simp only [h1, h2, Bool.false_eq_true, if_false, if_neg h3]
    refine ⟨?_, ?_⟩ <;> trivial

/-- C3 (witness): instantiation at a concrete employer, job and
application, with the requested status `"offer"`. -/
theorem update_application_status_whitelist_witness :
    ("offer" ∈ ATS.validStatuses →
      (ATS.update_application_status Samples.caller0 "Acme" Samples.app0
          "offer" "" 77).2 = ATS.UpdateResponse.success "offer") ∧
    ("offer" ∉ ATS.validStatuses →
      (ATS.update_application_status Samples.caller0 "Acme" Samples.app0
          "offer" "" 77).2 = ATS.UpdateResponse.invalidStatus ∧
      (ATS.update_application_status Samples.caller0 "Acme" Samples.app0
          "offer" "" 77).1 = Samples.app0) :=
  update_application_status_whitelist Samples.caller0 "Acme" Samples.app0
    "offer" "" 77 rfl rfl

/-- C4: when a `JobApplication` row for the `(user, job)` pair already
exists, a second `apply_to_job` request by that job seeker for that job
is answered with the 400 `already applied` error and the
`JobApplication` table is left unchanged. -/
theorem apply_to_job_duplicate_rejected (jobIds : List Nat)
    (apps : List Dashboard.AppRow) (uid jid : Nat) (cover resume : String)
    (hjob : jid ∈ jobIds)
    (hex : ∃ a ∈ apps, a.user_id = uid ∧ a.job_id = jid) :
    (Dashboard.apply_to_job jobIds apps "job_seeker" uid jid cover resume).1 = apps ∧
    (Dashboard.apply_to_job jobIds apps "job_seeker" uid jid cover resume).2 =
      Dashboard.ApplyResponse.alreadyApplied := by
  have h1 : (("job_seeker" : String) != "job_seeker") = false := by simp
  have h2 : jobIds.contains jid = true := List.elem_eq_true_of_mem hjob
  have h3 : apps.any (fun a => a.user_id == uid && a.job_id == jid) = true := by
    rcases hex with ⟨a, ha, h4, h5⟩
    exact List.any_eq_true.mpr ⟨a, ha, by simp [h4, h5]⟩
  rw [Dashboard.apply_to_job]
  simp only [h1, h2, h3, Bool.not_true, Bool.false_eq_true, if_false, if_true]
  refine ⟨?_, ?_⟩ <;> trivial

/-- C4 (witness): a job seeker who already applied to job 3 applies
again. -/
theorem apply_to_job_duplicate_rejected_witness :
    (Dashboard.apply_to_job [3] [⟨5, 3, "a", "b"⟩] "job_seeker" 5 3 "c" "d").1 =
      [⟨5, 3, "a", "b"⟩] ∧
    (Dashboard.apply_to_job [3] [⟨5, 3, "a", "b"⟩] "job_seeker" 5 3 "c" "d").2 =
      Dashboard.ApplyResponse.alreadyApplied :=
  apply_to_job_duplicate_rejected [3] [⟨5, 3, "a", "b"⟩] 5 3 "c" "d"
    (by decide) ⟨⟨5, 3, "a", "b"⟩, by decide, rfl, rfl⟩

/-- C5: `toggle_bookmark` preserves the `(user_id, job_id)` uniqueness
invariant of the `JobBookmark` table, and on the authorised path it
deletes the existing bookmark row when the pair is already bookmarked
(one row fewer) and inserts exactly one new row otherwise. -/
theorem toggle_bookmark_unique_preserved (jobIds : List Nat)
    (bms : List Dashboard.Bookmark) (caller_type : String)
    (uid jid freshId : Nat)
    (h : Dashboard.bookmarkKeyUnique bms) :
    Dashboard.bookmarkKeyUnique
      (Dashboard.toggle_bookmark jobIds bms caller_type uid jid freshId).1 ∧
    (caller_type = "job_seeker" → jid ∈ jobIds →
      ((∃ b ∈ bms, b.user_id = uid ∧ b.job_id = jid) →
        (Dashboard.toggle_bookmark jobIds bms caller_type uid jid freshId).1.length + 1 =
          bms.length) ∧
      ((¬ ∃ b ∈ bms, b.user_id = uid ∧ b.job_id = jid) →
        (Dashboard.toggle_bookmark jobIds bms caller_type uid jid freshId).1 =
          bms ++ [⟨freshId, uid, jid⟩])) := by
  simp only [Dashboard.toggle_bookmark]
  by_cases hct : (caller_type != "job_seeker") = true
  · simp only [if_pos hct]
    refine ⟨h, fun hceq _ => ?_⟩
    rw [bne_iff_ne] at hct
    exact absurd hceq hct
  · simp only [if_neg hct]
    by_cases hjm : (!jobIds.contains jid) = true
    · simp only [if_pos hjm]
      refine ⟨h, fun _ hjmem => absurd hjmem ?_⟩
      simpa using hjm
    · simp only [if_neg hjm]
      cases hf : bms.find? (fun b => b.user_id == uid && b.job_id == jid) with
      | some b =>
        simp only [hf]
        have hmem : b ∈ bms := List.mem_of_find?_eq_some hf
        refine ⟨h.sublist (List.erase_sublist b bms), fun _ _ => ⟨fun _ => ?_, fun hno => ?_⟩⟩
        · have h1 := List.length_erase_of_mem hmem
          have h2 := List.length_pos.mpr (List.ne_nil_of_mem hmem)
          omega
        · exfalso
          have hp := List.find?_some hf
          simp only [Bool.and_eq_true, beq_iff_eq] at hp
          exact hno ⟨b, hmem, hp.1, hp.2⟩
      | none =>
        simp only [hf]
        have hnotin : ∀ a ∈ bms, ¬ (a.user_id = uid ∧ a.job_id = jid) := by
          intro a ha hc
          have := List.find?_eq_none.mp hf a ha
          simp only [Bool.and_eq_true, beq_iff_eq] at this
          exact this ⟨hc.1, hc.2⟩
        constructor
        · unfold Dashboard.bookmarkKeyUnique at h ⊢
          rw [List.pairwise_append]
          refine ⟨h, List.pairwise_singleton _ _, fun a ha b' hb' => ?_⟩
          rw [List.mem_singleton] at hb'
          subst hb'
          rcases Decidable.not_and_iff_or_not.mp (hnotin a ha) with hu | hj
          · exact Or.inl hu
          · exact Or.inr hj
        · intro _ _
          refine ⟨fun hex => ?_, fun _ => by trivial⟩
          rcases hex with ⟨b, hb, h4, h5⟩
          exact absurd ⟨h4, h5⟩ (hnotin b hb)

/-- C5 (witness): toggling job 3 for user 5 on a two-row bookmark
table that satisfies the uniqueness constraint. -/
theorem toggle_bookmark_unique_preserved_witness :
    Dashboard.bookmarkKeyUnique
      (Dashboard.toggle_bookmark [3, 4] Samples.bms0 "job_seeker" 5 3 9).1 ∧
    ("job_seeker" = "job_seeker" → 3 ∈ [3, 4] →
      ((∃ b ∈ Samples.bms0, b.user_id = 5 ∧ b.job_id = 3) →
        (Dashboard.toggle_bookmark [3, 4] Samples.bms0 "job_seeker" 5 3 9).1.length + 1 =
          Samples.bms0.length) ∧
      ((¬ ∃ b ∈ Samples.bms0, b.user_id = 5 ∧ b.job_id = 3) →
        (Dashboard.toggle_bookmark [3, 4] Samples.bms0 "job_seeker" 5 3 9).1 =
          Samples.bms0 ++ [⟨9, 5, 3⟩])) :=
  toggle_bookmark_unique_preserved [3, 4] Samples.bms0 "job_seeker" 5 3 9
    (by decide)

/-- C6: in the `search_jobs` save loop a scraped job is inserted (the
table grows by exactly that row) iff no existing row matches it on
title, company and `job_url` simultaneously, and it is skipped (the
table is unchanged) iff such a row exists — equality of the other
thirteen fields plays no role.  The loop threads the evolving table
through `saveStep`, so rows inserted earlier in the same batch take
part in later checks. -/
theorem search_jobs_dedup_iff (table : List Routes.JobRow)
    (jd : Routes.JobRow) (rest : List Routes.JobRow) :
    (Routes.saveStep table jd = table ++ [jd] ↔
      ¬ ∃ r ∈ table, r.title = jd.title ∧ r.company = jd.company ∧
        r.job_url = jd.job_url) ∧
    (Routes.saveStep table jd = table ↔
      ∃ r ∈ table, r.title = jd.title ∧ r.company = jd.company ∧
        r.job_url = jd.job_url) ∧
    Routes.saveJobs table (jd :: rest) =
      Routes.saveJobs (Routes.saveStep table jd) rest := by
  have hiff : (table.any fun r => Routes.dedupMatch r jd) = true ↔
      ∃ r ∈ table, r.title = jd.title ∧ r.company = jd.company ∧
        r.job_url = jd.job_url := by
    rw [List.any_eq_true]
    constructor
    · rintro ⟨r, hr, hm⟩
      simp only [Routes.dedupMatch, Bool.and_eq_true, beq_iff_eq] at hm
      exact ⟨r, hr, hm.1.1, hm.1.2, hm.2⟩
    · rintro ⟨r, hr, h1, h2, h3⟩
      exact ⟨r, hr, by simp [Routes.dedupMatch, h1, h2, h3]⟩
  have hne : table ++ [jd] ≠ table := by
    intro hcontra
    have := congrArg List.length hcontra
    simp at this
  refine ⟨⟨fun hstep => ?_, fun hnex => ?_⟩, ⟨fun hstep => ?_, fun hex => ?_⟩, rfl⟩
  · intro hex
    rw [Routes.saveStep, if_pos (hiff.mpr hex)] at hstep
    exact hne hstep.symm
  · have hfalse : ¬ (table.any fun r => Routes.dedupMatch r jd) = true :=
      fun hc => hnex (hiff.mp hc)
    rw [Routes.saveStep, if_neg hfalse]
  · by_contra hnex
    have hfalse : ¬ (table.any fun r => Routes.dedupMatch r jd) = true :=
      fun hc => hnex (hiff.mp hc)
    rw [Routes.saveStep, if_neg hfalse] at hstep
    exact hne hstep
  · rw [Routes.saveStep, if_pos (hiff.mpr hex)]

/-- C2 (witness): an authorised employer moves the sample application
to `screening` with a non-empty note. -/
theorem update_application_status_frame_witness :
    ((ATS.update_application_status Samples.caller0 "Acme" Samples.app0
        "screening" "great" 42).1 ≠ Samples.app0 →
      Samples.caller0.user_type = "employer" ∧
        Samples.caller0.company_name = "Acme") ∧
    ((ATS.update_application_status Samples.caller0 "Acme" Samples.app0
        "screening" "great" 42).2 = ATS.UpdateResponse.success "screening" →
      (ATS.update_application_status Samples.caller0 "Acme" Samples.app0
        "screening" "great" 42).1 =
        { Samples.app0 with
            status := "screening",
            notes := if "great" = "" then Samples.app0.notes else "great",
            last_updated := 42 }) :=
  update_application_status_frame Samples.caller0 "Acme" Samples.app0
    "screening" "great" 42

/-- C7: `_calculate_cultural_fit` is deterministic — equal personality
profiles and equal company records give identical results, in
particular identical `overall_fit_score`s; the embedding is a pure
function of exactly these two arguments and static string data. -/
theorem calculate_cultural_fit_deterministic
    (p₁ p₂ : Cultural.PersonalityProfile) (c₁ c₂ : Cultural.CompanyCulture)
    (hp : p₁ = p₂) (hc : c₁ = c₂) :
    Cultural.calculate_cultural_fit p₁ c₁ =
      Cultural.calculate_cultural_fit p₂ c₂ := by
  subst hp
  subst hc
  rfl

/-- C7 (witness): instantiation at the sample profile and company. -/
theorem calculate_cultural_fit_deterministic_witness :
    Samples.p0 = Samples.p0 ∧ Samples.c0 = Samples.c0 ∧
    Cultural.calculate_cultural_fit Samples.p0 Samples.c0 =
      Cultural.calculate_cultural_fit Samples.p0 Samples.c0 :=
  ⟨rfl, rfl, calculate_cultural_fit_deterministic Samples.p0 Samples.p0
    Samples.c0 Samples.c0 rfl rfl⟩

/-- C8: the overall score is the (equally) weighted combination
`sum(scores.values()) / len(scores)` of the per-factor scores, it is
returned unchanged in `overall_fit_score`, and the compatibility label
buckets it exactly at the thresholds 85, 70 and 55. -/
theorem cultural_fit_buckets (p : Cultural.PersonalityProfile)
    (c : Cultural.CompanyCulture) :
    ((Cultural.calculate_cultural_fit p c).overall_fit_score =
        ((Cultural.fitScores p c).map Prod.snd).sum /
          ((Cultural.fitScores p c).length : ℚ) ∧
      ((Cultural.calculate_cultural_fit p c).compatibility_level = "Excellent Fit" ↔
        85 ≤ Cultural.overall_score p c) ∧
      ((Cultural.calculate_cultural_fit p c).compatibility_level = "Good Fit" ↔
        70 ≤ Cultural.overall_score p c ∧ Cultural.overall_score p c < 85) ∧
      ((Cultural.calculate_cultural_fit p c).compatibility_level = "Moderate Fit" ↔
        55 ≤ Cultural.overall_score p c ∧ Cultural.overall_score p c < 70) ∧
      ((Cultural.calculate_cultural_fit p c).compatibility_level = "Challenging Fit" ↔
        Cultural.overall_score p c < 55)) := by
  have hfit : (Cultural.calculate_cultural_fit p c).compatibility_level =
      (if Cultural.overall_score p c ≥ 85 then "Excellent Fit"
       else if Cultural.overall_score p c ≥ 70 then "Good Fit"
       else if Cultural.overall_score p c ≥ 55 then "Moderate Fit"
       else "Challenging Fit") := rfl
  rcases le_or_lt 85 (Cultural.overall_score p c) with h85 | h85
  · rw [hfit, if_pos h85]
    exact ⟨rfl, iff_of_true rfl h85,
      iff_of_false (by decide) (fun hx => absurd hx.2 (not_lt.mpr h85)),
      iff_of_false (by decide)
        (fun hx => absurd (h85.trans_lt hx.2) (by norm_num)),
      iff_of_false (by decide)
        (fun hx => absurd (h85.trans_lt hx) (by norm_num))⟩
  · rcases le_or_lt 70 (Cultural.overall_score p c) with h70 | h70
    · rw [hfit, if_neg (not_le.mpr h85), if_pos h70]
      exact ⟨rfl, iff_of_false (by decide) (not_le.mpr h85),
        iff_of_true rfl ⟨h70, h85⟩,
        iff_of_false (by decide) (fun hx => absurd hx.2 (not_lt.mpr h70)),
        iff_of_false (by decide)
          (fun hx => absurd (h70.trans_lt hx) (by norm_num))⟩
    · rcases le_or_lt 55 (Cultural.overall_score p c) with h55 | h55
      · rw [hfit, if_neg (not_le.mpr h85), if_neg (not_le.mpr h70), if_pos h55]
        exact ⟨rfl, iff_of_false (by decide) (not_le.mpr h85),
          iff_of_false (by decide) (fun hx => absurd hx.1 (not_le.mpr h70)),
          iff_of_true rfl ⟨h55, h70⟩,
          iff_of_false (by decide) (fun hx => absurd hx (not_lt.mpr h55))⟩
      · rw [hfit, if_neg (not_le.mpr h85), if_neg (not_le.mpr h70),
          if_neg (not_le.mpr h55)]
        exact ⟨rfl, iff_of_false (by decide) (not_le.mpr h85),
          iff_of_false (by decide) (fun hx => absurd hx.1 (not_le.mpr h70)),
          iff_of_false (by decide) (fun hx => absurd hx.1 (not_le.mpr h55)),
          iff_of_true rfl h55⟩

/-- C9: `search_relocation_jobs` always returns at most 20 job records
and never raises: when one of the API calls raises, the exception is
caught and the jobs collected before the failure (possibly none) are
returned, capped at 20. -/
theorem search_relocation_jobs_cap {α : Type} (env : Scraper.ScrapeEnv α) :
    (Scraper.search_relocation_jobs env).length ≤ 20 ∧
    (∀ e, env.usajobs = .error e →
      Scraper.search_relocation_jobs env = []) ∧
    (∀ usa k e, env.usajobs = .ok usa → env.rapidapi_key = some k →
      env.jsearch = .error e →
      Scraper.search_relocation_jobs env = usa.take 20) ∧
    (∀ usa k rj e, env.usajobs = .ok usa → env.rapidapi_key = some k →
      env.jsearch = .ok rj → env.linkup = .error e →
      Scraper.search_relocation_jobs env = (usa ++ rj).take 20) ∧
    (∀ usa e, env.usajobs = .ok usa → env.rapidapi_key = none →
      env.linkup = .error e →
      Scraper.search_relocation_jobs env = usa.take 20) := by
  obtain ⟨u, k, j, l⟩ := env
  refine ⟨?_, ?_, ?_, ?_, ?_⟩
  · rcases u with e | usa
    · simp [Scraper.search_relocation_jobs]
    · rcases k with _ | key <;> rcases j with je | rj <;> rcases l with le | lj <;>
        simp [Scraper.search_relocation_jobs, List.length_take]
  · rintro e rfl
    rfl
  · rintro usa key e rfl rfl rfl
    rfl
  · rintro usa key rj e rfl rfl rfl rfl
    rfl
  · rintro usa e rfl rfl rfl
    rfl

/-- C9 (witness): instantiation at a concrete environment in which the
JSearch call raises after USAJobs returned three jobs. -/
theorem search_relocation_jobs_cap_witness :
    (Scraper.search_relocation_jobs Samples.env0).length ≤ 20 ∧
    (∀ e, Samples.env0.usajobs = .error e →
      Scraper.search_relocation_jobs Samples.env0 = []) ∧
    (∀ usa k e, Samples.env0.usajobs = .ok usa →
      Samples.env0.rapidapi_key = some k → Samples.env0.jsearch = .error e →
      Scraper.search_relocation_jobs Samples.env0 = usa.take 20) ∧
    (∀ usa k rj e, Samples.env0.usajobs = .ok usa →
      Samples.env0.rapidapi_key = some k → Samples.env0.jsearch = .ok rj →
      Samples.env0.linkup = .error e →
      Scraper.search_relocation_jobs Samples.env0 = (usa ++ rj).take 20) ∧
    (∀ usa e, Samples.env0.usajobs = .ok usa →
      Samples.env0.rapidapi_key = none → Samples.env0.linkup = .error e →
      Scraper.search_relocation_jobs Samples.env0 = usa.take 20) :=
  search_relocation_jobs_cap Samples.env0

/-- C10: the `scores` dict of `_calculate_cultural_fit` always holds a
`hierarchy` entry (assigned in both branches of an unconditional
`if`/`else`), so it is non-empty and `len(scores)` is positive when the
average is taken — the division never divides by zero. -/
theorem fit_scores_nonempty (p : Cultural.PersonalityProfile)
    (c : Cultural.CompanyCulture) :
    (∃ q, ("hierarchy", q) ∈ Cultural.fitScores p c) ∧
    0 < (Cultural.fitScores p c).length := by
  simp only [Cultural.fitScores]
  split_ifs <;> simp

